import Mathlib

/-!
Verification development for the TokenForge control plane.

This file gives a shallow embedding of the core of the repository:

* `controlplane/k8s/client.go` — the `Registry` (a `map[string]string`
  guarded by a reader-writer lock, keyed by `makeKey`), `slugify`,
  `DeployWorker` resource naming, and the deployment/service manifest
  builders;
* `controlplane/controller.go` — `Controller.DeployModel` and
  `Controller.waitForReady`;
* `api/handlers/deploy.go` — `DeployHandler`;
* the inference handler (`InferHandler`) with its registry lookup,
  forwarding, and the streaming branch that synthesizes token events
  from a synchronous backend payload.

Go maps with string keys are embedded as association lists with
overwrite-on-insert semantics; the cluster, the JSON codec and the
config store are oracles passed in as explicit parameters, so that
every definition stays executable.
-/

/-- A Go `map[string]string`, embedded as an association list whose
`insert` overwrites the binding of an existing key in place. -/
abbrev GoMap := List (String × String)

/-- Embedding of `store[k] = v` on a Go string map: overwrite the first
binding of `k` if present, otherwise append the new binding. -/
def GoMap.insert : GoMap → String → String → GoMap
  | [], k, v => [(k, v)]
  | (k', v') :: rest, k, v =>
    if k' = k then (k, v) :: rest else (k', v') :: GoMap.insert rest k v

/-- Embedding of `v, ok := store[k]` on a Go string map. -/
def GoMap.lookup : GoMap → String → Option String
  | [], _ => none
  | (k', v') :: rest, k => if k' = k then some v' else GoMap.lookup rest k

/-- Embedding of `delete(store, k)` on a Go string map. -/
def GoMap.eraseKey : GoMap → String → GoMap
  | [], _ => []
  | (k', v') :: rest, k =>
    if k' = k then rest else (k', v') :: GoMap.eraseKey rest k

/-- `makeKey` from `client.go`: `fmt.Sprintf("%s::%s", model, runtime)`. -/
def makeKey (model runtime : String) : String :=
  model ++ "::" ++ runtime

/-- `Registry.Set`: `r.store[makeKey(model, runtime)] = serviceURL`.
The registry state is the contents of its backing map. -/
def Registry.set (store : GoMap) (model runtime serviceURL : String) : GoMap :=
  store.insert (makeKey model runtime) serviceURL

/-- `Registry.Get`: `url, found := r.store[makeKey(model, runtime)]`. -/
def Registry.get (store : GoMap) (model runtime : String) : Option String :=
  store.lookup (makeKey model runtime)

/-- `Registry.Delete`: `delete(r.store, makeKey(model, runtime))`. -/
def Registry.delete (store : GoMap) (model runtime : String) : GoMap :=
  store.eraseKey (makeKey model runtime)

/-- Go `strings.ReplaceAll(s, old, new)` specialised to a one-character
pattern, which is how `slugify` uses it: a character-wise replacement. -/
def replaceAllChar (pat rep : Char) (s : String) : String :=
  String.mk (s.data.map fun c => if c = pat then rep else c)

/-- Go `strings.ToLower` (character-wise; ASCII case mapping, which is
all the cluster-name inputs exercise). -/
def strToLower (s : String) : String :=
  String.mk (s.data.map Char.toLower)

/-- `slugify` from `client.go`: replace `/` with `-`, then `.` with `-`,
then lowercase. -/
def slugify (name : String) : String :=
  strToLower (replaceAllChar '.' '-' (replaceAllChar '/' '-' name))

/-- The resource name computed in `DeployWorker`:
`fmt.Sprintf("worker-%s-%s", runtime, modelSlug)`; the service reuses
the deployment's name. -/
def workerName (model runtime : String) : String :=
  "worker-" ++ runtime ++ "-" ++ slugify model

/-- The service URL synthesized in `DeployWorker`:
`fmt.Sprintf("http://%s.%s.svc.cluster.local:8000", serviceName, namespace)`. -/
def workerServiceURL (serviceName nsName : String) : String :=
  "http://" ++ serviceName ++ "." ++ nsName ++ ".svc.cluster.local:8000"

/-- `RuntimeConfig` from `client.go` (the runtime descriptor read from
`configs/runtimes.yaml`). Its `env` map is embedded as an association
list in iteration order. -/
structure RuntimeConfig where
  name : String
  image : String
  gpu : Int
  cpu : String
  mem : String
  env : List (String × String)
deriving DecidableEq

/-- `ModelConfig` from `client.go` (the model descriptor read from
`configs/models.yaml`). -/
structure ModelConfig where
  name : String
  quant : String
  hash : String
deriving DecidableEq

/-- The container of the worker pod as built by
`buildDeploymentManifest`: name, image, environment, resource
limits/requests (quantities kept as their source strings), the HTTP
port, and the readiness-probe target. -/
structure ContainerSpec where
  name : String
  image : String
  env : List (String × String)
  limits : List (String × String)
  requests : List (String × String)
  portName : String
  containerPort : Nat
  probePath : String
  probePort : Nat
deriving DecidableEq

/-- The parts of the `appsv1.Deployment` manifest that
`buildDeploymentManifest` sets: object labels, replica count, the
selector's match labels, the pod template's labels, and the container. -/
structure DeploymentManifest where
  name : String
  nsName : String
  labels : GoMap
  replicas : Nat
  selectorMatchLabels : GoMap
  podLabels : GoMap
  container : ContainerSpec
deriving DecidableEq

/-- The parts of the `corev1.Service` manifest that
`buildServiceManifest` sets. -/
structure ServiceManifest where
  name : String
  nsName : String
  labels : GoMap
  selector : GoMap
  portName : String
  port : Nat
  targetPort : Nat
  svcType : String
deriving DecidableEq

/-- `buildDeploymentManifest` from `client.go`: labels
`{app: worker, runtime, model: slugify(model)}` shared by the object,
the selector and the pod template; env `MODEL_NAME`/`MODEL_HASH`/`QUANT`
followed by the runtime's own variables; cpu/memory limits and requests
plus an `nvidia.com/gpu` quantity only when `runtimeConfig.GPU > 0`;
one replica; port 8000; readiness probe on `/healthz:8000`. -/
def buildDeploymentManifest (nsName name model runtime quant : String)
    (runtimeConfig : RuntimeConfig) (modelConfig : ModelConfig) : DeploymentManifest :=
  let labels : GoMap :=
    [("app", "worker"), ("runtime", runtime), ("model", slugify model)]
  let env :=
    [("MODEL_NAME", model), ("MODEL_HASH", modelConfig.hash), ("QUANT", quant)]
      ++ runtimeConfig.env
  let baseRes := [("cpu", runtimeConfig.cpu), ("memory", runtimeConfig.mem)]
  let res :=
    if runtimeConfig.gpu > 0 then
      baseRes ++ [("nvidia.com/gpu", toString runtimeConfig.gpu)]
    else baseRes
  ⟨name, nsName, labels, 1, labels, labels,
    ⟨"worker", runtimeConfig.image, env, res, res, "http", 8000, "/healthz", 8000⟩⟩

/-- `buildServiceManifest` from `client.go`: object labels
`{app: worker}`, pod selector `{app: worker, name: deploymentName}`,
one HTTP port 8000 targeting 8000, type ClusterIP. -/
def buildServiceManifest (nsName name deploymentName : String) : ServiceManifest :=
  ⟨name, nsName, [("app", "worker")],
    [("app", "worker"), ("name", deploymentName)],
    "http", 8000, 8000, "ClusterIP"⟩

/-- Kubernetes label-selector semantics: a selector matches a pod when
every key/value pair it requires appears among the pod's labels. -/
def selectorMatches (sel podLabels : GoMap) : Bool :=
  sel.all fun kv => podLabels.lookup kv.1 == some kv.2

example : slugify "meta-llama/Llama-3-8b-instruct" = "meta-llama-llama-3-8b-instruct" := by decide
example : workerName "meta-llama/Llama-3-8b-instruct" "vllm" =
    "worker-vllm-meta-llama-llama-3-8b-instruct" := by decide
example : Registry.get (Registry.set [] "a::b" "c" "u") "a" "b::c" = some "u" := by decide

/-! ## The deployment controller (`controlplane/controller.go`) -/

/-- The tuple returned by a successful `k8s.DeployWorker` call. -/
structure DeployedWorker where
  serviceURL : String
  nsName : String
  deploymentName : String
  serviceName : String
deriving DecidableEq

/-- The cluster as the controller sees it: the outcome of the
`k8s.DeployWorker` call, and the outcome of the n-th
`k8s.IsDeploymentReady` poll. -/
structure ClusterEnv where
  deployWorker : Except String DeployedWorker
  isReady : Nat → Except String Bool

/-- Outcome of the polling loop in `Controller.waitForReady`. -/
inductive PollResult where
  | ready
  | timedOut
  | errored (msg : String)
deriving DecidableEq

/-- The fixed poll interval of `waitForReady`: `time.After(5 * time.Second)`. -/
def pollIntervalSeconds : Nat := 5

/-- The overall deadline of `waitForReady`:
`context.WithTimeout(ctx, 5*time.Minute)`. -/
def deployDeadlineSeconds : Nat := 300

/-- Number of 5-second ticks that fit in the 5-minute deadline: the
number of readiness checks `waitForReady` can run before `ctx.Done()`
fires. -/
def maxPollAttempts : Nat := deployDeadlineSeconds / pollIntervalSeconds

/-- The error text of a Go context whose deadline elapsed
(`ctx.Err()` after `context.WithTimeout` expires). -/
def ctxDeadlineExceeded : String := "context deadline exceeded"

/-- The `for { select { ... } }` loop of `Controller.waitForReady`,
with the remaining tick budget made explicit: each iteration either
hits the deadline (`ctx.Done()`), or runs `IsDeploymentReady` and
stops on `ready`/error, or loops. -/
def waitForReadyLoop (isReady : Nat → Except String Bool) : Nat → Nat → PollResult
  | 0, _ => .timedOut
  | fuel + 1, i =>
    match isReady i with
    | .error e => .errored e
    | .ok true => .ready
    | .ok false => waitForReadyLoop isReady fuel (i + 1)

/-- `Controller.waitForReady`: poll every 5 seconds under a 5-minute
deadline. -/
def waitForReady (isReady : Nat → Except String Bool) : PollResult :=
  waitForReadyLoop isReady maxPollAttempts 0

instance exceptDecEq {ε α : Type} [DecidableEq ε] [DecidableEq α] :
    DecidableEq (Except ε α) := fun a b =>
  match a, b with
  | .ok x, .ok y =>
    if h : x = y then .isTrue (by rw [h])
    else .isFalse fun hh => h (Except.ok.inj hh)
  | .error x, .error y =>
    if h : x = y then .isTrue (by rw [h])
    else .isFalse fun hh => h (Except.error.inj hh)
  | .ok _, .error _ => .isFalse fun hh => Except.noConfusion hh
  | .error _, .ok _ => .isFalse fun hh => Except.noConfusion hh

/-- What a `Controller.DeployModel` call produced: the value returned
to the caller, the registry contents afterwards, and whether
`k8s.DeployWorker` (which creates the cluster workload and service)
was invoked. -/
structure DeployOutcome where
  result : Except String String
  registry : GoMap
  invokedDeployWorker : Bool
deriving DecidableEq

/-- `Controller.DeployModel` from `controller.go`: fast path on an
existing registry entry; otherwise `k8s.DeployWorker`, then
`registry.Set`, then a synchronous `waitForReady` whose failure is
returned to the caller as an error. -/
def DeployModel (env : ClusterEnv) (reg : GoMap) (model runtime quant : String) :
    DeployOutcome :=
  match Registry.get reg model runtime with
  | some serviceURL => ⟨.ok serviceURL, reg, false⟩
  | none =>
    match env.deployWorker with
    | .error e => ⟨.error ("failed to deploy worker: " ++ e), reg, true⟩
    | .ok w =>
      let reg' := Registry.set reg model runtime w.serviceURL
      match waitForReady env.isReady with
      | .ready => ⟨.ok w.serviceURL, reg', true⟩
      | .timedOut =>
        ⟨.error ("deployment failed to become ready: " ++ ctxDeadlineExceeded), reg', true⟩
      | .errored e =>
        ⟨.error ("deployment failed to become ready: " ++ e), reg', true⟩

/-! ## The HTTP deploy handler (`api/handlers/deploy.go`) -/

/-- A decoded `DeployRequest` body. -/
structure DeployRequest where
  model : String
  runtime : String
  quant : String
deriving DecidableEq

/-- The JSON body of a successful deploy response (`DeployResponse`);
`deployed_at` (a wall-clock read) is omitted. -/
structure DeployResponseBody where
  endpoint : String
  status : String
  k8sNamespace : String
  k8sDeployment : String
  k8sService : String
deriving DecidableEq

/-- What `DeployHandler` writes back: a 400, a 500, or the 200 body. -/
inductive DeployHandlerResult where
  | badRequest (msg : String)
  | serverError (msg : String)
  | ok (body : DeployResponseBody)
deriving DecidableEq

/-- `DeployHandler` from `deploy.go`: validate, call `k8s.DeployWorker`
directly, register the URL, and answer `status: "deploying"`
immediately — the handler never polls readiness (its inputs do not even
include a readiness oracle). -/
def DeployHandler (deployWorker : Except String DeployedWorker) (reg : GoMap)
    (req : DeployRequest) : DeployHandlerResult × GoMap :=
  if req.model = "" ∨ req.runtime = "" then
    (.badRequest "model and runtime are required", reg)
  else
    match deployWorker with
    | .error e => (.serverError ("failed to deploy worker: " ++ e), reg)
    | .ok w =>
      (.ok ⟨w.serviceURL, "deploying", w.nsName, w.deploymentName, w.serviceName⟩,
        Registry.set reg req.model req.runtime w.serviceURL)

example :
    waitForReady (fun _ => .ok false) = .timedOut := by decide
example :
    (DeployModel ⟨.ok ⟨"u", "default", "d", "s"⟩, fun _ => .ok true⟩ [] "m" "r" "q").result
      = .ok "u" := by decide

/-! ## The inference gateway (`InferHandler`) -/

/-- A decoded `InferRequest` body. -/
structure InferRequest where
  model : String
  runtime : String
  prompt : String
  maxTokens : Int
  temperature : Float
  topP : Float
  stream : Bool

/-- A decoded worker `InferResponse` body (the fields `json.Unmarshal`
fills in the synthetic-streaming branch). -/
structure InferResponse where
  output : String
  latencyMs : Int
  tokensIn : Int
  tokensOut : Int
  metaEngine : String
  metaVersion : String
  metaCuda : String
  metaGpu : String
deriving DecidableEq

/-- What `http.Post` to the worker produced, as the handler consumes
it: the HTTP status, the `Content-Type` header, the outcome of
`io.ReadAll` on the body, and — as a codec oracle — the outcome of
`json.Unmarshal` of that body into an `InferResponse`. -/
structure BackendResponse where
  status : Nat
  contentType : String
  bodyRead : Except String String
  parsed : Except String InferResponse

/-- The gateway's collaborators: the outcome of `http.Post` for a given
URL. -/
structure InferEnv where
  post : String → Except String BackendResponse

/-- One synthesized stream event: the JSON object
`{token, index, is_last}` the handler writes as an SSE `data:` line. -/
structure StreamEvent where
  token : String
  index : Nat
  isLast : Bool
deriving DecidableEq

/-- One observable action on the `http.ResponseWriter`. -/
inductive WriteItem where
  | headerSet (name value : String)
  | statusCode (code : Nat)
  | raw (data : String)
  | event (e : StreamEvent)
deriving DecidableEq

/-- Go's `http.Error(w, msg, code)`: set the status code and write the
message as the body. -/
def httpError (code : Nat) (msg : String) : List WriteItem :=
  [.statusCode code, .raw msg]

/-- What one `InferHandler` call did: the URLs it POSTed to (the
outbound network calls) and everything it wrote to the caller. -/
structure InferOutcome where
  calls : List String
  writes : List WriteItem
deriving DecidableEq

/-- Go's `unicode.IsSpace` restricted to ASCII, the white space
`bytes.Fields` splits on. -/
def goIsSpace (c : Char) : Bool :=
  c == ' ' || c == '\t' || c == '\n' || c == '\x0b' || c == '\x0c' || c == '\r'

/-- Scanner for `bytes.Fields`: walk the characters, accumulating the
current field in reverse; white space closes the current field, and
empty fields are dropped. -/
def fieldsAux : List Char → List Char → List String
  | [], acc => if acc.isEmpty then [] else [String.mk acc.reverse]
  | c :: cs, acc =>
    if goIsSpace c then
      (if acc.isEmpty then [] else [String.mk acc.reverse]) ++ fieldsAux cs []
    else
      fieldsAux cs (c :: acc)

/-- `bytes.Fields`: split around runs of white space, dropping empty
fields. -/
def fields (s : String) : List String :=
  fieldsAux s.data []

/-- The token-emission loop of the synthetic-streaming branch:
`for i, token := range tokens` emits `{token, index: i, is_last: i == len(tokens)-1}`.
`n` is `len(tokens)` and `i` the running index. -/
def emitTokens (n : Nat) : Nat → List String → List StreamEvent
  | _, [] => []
  | i, t :: ts => ⟨t, i, i == n - 1⟩ :: emitTokens n (i + 1) ts

/-- The events the synthetic-streaming branch emits for a given
generated text. -/
def syntheticEvents (output : String) : List StreamEvent :=
  emitTokens (fields output).length 0 (fields output)

/-- The five writes the streaming branch performs before it looks at
the backend's content type: the three SSE headers, `WriteHeader` with
the backend status, and `w.Write(respBody)` with the raw body. -/
def streamHead (status : Nat) (respBody : String) : List WriteItem :=
  [.headerSet "Content-Type" "text/event-stream",
   .headerSet "Cache-Control" "no-cache",
   .headerSet "Connection" "keep-alive",
   .statusCode status,
   .raw respBody]

/-- `InferHandler` from the gateway source: validate, look up the
registry, POST to `workerURL + "/infer"`, read the body, then either
the streaming branch (headers, raw body write, and — when the backend
did not answer `text/event-stream` — parse and emit one event per
whitespace token with a 100 ms pacing sleep) or the non-streaming
passthrough. -/
def InferHandler (env : InferEnv) (reg : GoMap) (req : InferRequest) : InferOutcome :=
  if req.model = "" ∨ req.runtime = "" ∨ req.prompt = "" then
    ⟨[], httpError 400 "model, runtime, and prompt are required"⟩
  else
    match Registry.get reg req.model req.runtime with
    | none => ⟨[], httpError 404 "model not deployed with specified runtime"⟩
    | some workerURL =>
      let url := workerURL ++ "/infer"
      match env.post url with
      | .error e => ⟨[url], httpError 503 ("failed to connect to worker: " ++ e)⟩
      | .ok resp =>
        match resp.bodyRead with
        | .error e =>
          ⟨[url], httpError 500 ("failed to read worker response: " ++ e)⟩
        | .ok respBody =>
          if req.stream then
            if resp.contentType ≠ "text/event-stream" then
              match resp.parsed with
              | .error e =>
                ⟨[url], streamHead resp.status respBody
                    ++ httpError 500 ("failed to parse worker response: " ++ e)⟩
              | .ok ir =>
                ⟨[url], streamHead resp.status respBody
                    ++ (syntheticEvents ir.output).map .event⟩
            else
              ⟨[url], streamHead resp.status respBody⟩
          else
            ⟨[url], [.headerSet "Content-Type" "application/json",
                     .statusCode resp.status, .raw respBody]⟩

example : fields "The capital of France is Paris" =
    ["The", "capital", "of", "France", "is", "Paris"] := by decide
example : syntheticEvents "The capital of France is Paris" =
    [⟨"The", 0, false⟩, ⟨"capital", 1, false⟩, ⟨"of", 2, false⟩,
     ⟨"France", 3, false⟩, ⟨"is", 4, false⟩, ⟨"Paris", 5, true⟩] := by decide

/-! ## A heap of Go maps, for the aliasing behaviour of `Registry.List` -/

/-- A heap of allocated Go maps; a reference is an index into `slots`.
This makes Go's map aliasing explicit: `Registry.List` allocates a
fresh map (`make`) and copies the store into it, so mutating the
returned map must not touch the store. -/
structure MapHeap where
  slots : List GoMap
deriving DecidableEq

/-- Read the map a reference points to. -/
def MapHeap.read (h : MapHeap) (ref : Nat) : GoMap :=
  h.slots.getD ref []

/-- Replace the map a reference points to. -/
def MapHeap.writeSlot (h : MapHeap) (ref : Nat) (m : GoMap) : MapHeap :=
  ⟨h.slots.set ref m⟩

/-- Allocate a fresh map (`make(map[string]string)` plus the copy loop)
and return its reference. -/
def MapHeap.alloc (h : MapHeap) (m : GoMap) : Nat × MapHeap :=
  (h.slots.length, ⟨h.slots ++ [m]⟩)

/-- A mutation a caller can apply to a Go map it holds: write a key or
delete one. -/
inductive MapMutation where
  | insert (k v : String)
  | erase (k : String)

/-- Apply one mutation to a map value. -/
def applyMutation (m : GoMap) : MapMutation → GoMap
  | .insert k v => m.insert k v
  | .erase k => m.eraseKey k

/-- Apply a sequence of mutations to the map behind a reference. -/
def mutateAt (h : MapHeap) (ref : Nat) : List MapMutation → MapHeap
  | [] => h
  | mu :: rest => mutateAt (h.writeSlot ref (applyMutation (h.read ref) mu)) ref rest

/-- A `Registry` value: it owns a reference to its backing store. -/
structure RegistryRef where
  ref : Nat
deriving DecidableEq

/-- `Registry.List` against the heap: copy every entry of the store
into a freshly allocated map and hand back that map's reference. -/
def RegistryRef.listH (h : MapHeap) (r : RegistryRef) : Nat × MapHeap :=
  h.alloc (h.read r.ref)

/-- `Registry.Get` against the heap. -/
def RegistryRef.getH (h : MapHeap) (r : RegistryRef) (model runtime : String) :
    Option String :=
  (h.read r.ref).lookup (makeKey model runtime)

example :
    (RegistryRef.getH
      (mutateAt (RegistryRef.listH ⟨[[("m::r", "u")]]⟩ ⟨0⟩).2
        (RegistryRef.listH ⟨[[("m::r", "u")]]⟩ ⟨0⟩).1
        [.erase "m::r", .insert "m::r" "x"])
      ⟨0⟩ "m" "r") = some "u" := by decide

/-! ## Helper lemmas -/

theorem GoMap.lookup_insert_ne (m : GoMap) (k k' v : String) (hne : k' ≠ k) :
    (m.insert k v).lookup k' = m.lookup k' := by
  induction m with
  | nil => simp [GoMap.insert, GoMap.lookup, Ne.symm hne]
  | cons hd tl ih =>
    by_cases hk : hd.1 = k
    · simp [GoMap.insert, GoMap.lookup, hk, hne, Ne.symm hne]
    · simp only [GoMap.insert, GoMap.lookup, hk, if_false]
      by_cases hk' : hd.1 = k'
      · simp [GoMap.lookup, hk']
      · simp [GoMap.lookup, hk', ih]

theorem waitForReadyLoop_timedOut (f : Nat → Except String Bool) :
    ∀ (fuel i : Nat), (∀ j, j < fuel → f (i + j) = .ok false) →
      waitForReadyLoop f fuel i = .timedOut := by
  intro fuel
  induction fuel with
  | zero => intro i _; rfl
  | succ n ih =>
    intro i h
    have h0 : f i = .ok false := by simpa using h 0 (Nat.succ_pos n)
    have hrest : ∀ j, j < n → f (i + 1 + j) = .ok false := by
      intro j hj
      have := h (j + 1) (Nat.succ_lt_succ hj)
      simpa [Nat.add_comm, Nat.add_assoc, Nat.add_left_comm] using this
    simpa [waitForReadyLoop, h0] using ih (i + 1) hrest

theorem waitForReadyLoop_ready (f : Nat → Except String Bool) :
    ∀ (fuel i k : Nat), k < fuel → (∀ j, j < k → f (i + j) = .ok false) →
      f (i + k) = .ok true → waitForReadyLoop f fuel i = .ready := by
  intro fuel
  induction fuel with
  | zero => intro i k hk; exact absurd hk (Nat.not_lt_zero k)
  | succ n ih =>
    intro i k hk hbefore hk'
    match k with
    | 0 =>
      have h0 : f i = .ok true := by simpa using hk'
      simp [waitForReadyLoop, h0]
    | k' + 1 =>
      have h0 : f i = .ok false := by simpa using hbefore 0 (Nat.succ_pos k')
      have hbefore' : ∀ j, j < k' → f (i + 1 + j) = .ok false := by
        intro j hj
        have := hbefore (j + 1) (Nat.succ_lt_succ hj)
        simpa [Nat.add_comm, Nat.add_assoc, Nat.add_left_comm] using this
      have hk'' : f (i + 1 + k') = .ok true := by
        simpa [Nat.add_comm, Nat.add_assoc, Nat.add_left_comm] using hk'
      simpa [waitForReadyLoop, h0] using
        ih (i + 1) k' (Nat.lt_of_succ_lt_succ hk) hbefore' hk''

theorem emitTokens_get? :
    ∀ (ts : List String) (n i j : Nat),
      (emitTokens n i ts).get? j
        = (ts.get? j).map fun t => ⟨t, i + j, (i + j == n - 1)⟩ := by
  intro ts
  induction ts with
  | nil => intro n i j; simp [emitTokens]
  | cons t ts ih =>
    intro n i j
    match j with
    | 0 => simp [emitTokens]
    | j' + 1 =>
      have := ih n (i + 1) j'
      simpa [emitTokens, Nat.add_comm, Nat.add_assoc, Nat.add_left_comm] using this

theorem emitTokens_length :
    ∀ (ts : List String) (n i : Nat), (emitTokens n i ts).length = ts.length := by
  intro ts
  induction ts with
  | nil => intro n i; rfl
  | cons t ts ih => intro n i; simp [emitTokens, ih]

theorem listGetD_append_left (l m : List GoMap) (i : Nat) (h : i < l.length) :
    (l ++ m).getD i [] = l.getD i [] := by
  induction l generalizing i with
  | nil => exact absurd h (Nat.not_lt_zero i)
  | cons hd tl ih =>
    match i with
    | 0 => rfl
    | i' + 1 => simpa [List.getD] using ih i' (Nat.lt_of_succ_lt_succ h)

theorem listGetD_append_at_length (l : List GoMap) (m : GoMap) :
    (l ++ [m]).getD l.length [] = m := by
  induction l with
  | nil => rfl
  | cons hd tl ih => exact ih

theorem listGetD_set_ne (l : List GoMap) (i j : Nat) (m : GoMap) (h : i ≠ j) :
    (l.set i m).getD j [] = l.getD j [] := by
  induction l generalizing i j with
  | nil => simp [List.set]
  | cons hd tl ih =>
    match i, j with
    | 0, 0 => exact absurd rfl h
    | 0, j' + 1 => rfl
    | i' + 1, 0 => rfl
    | i' + 1, j' + 1 =>
      simpa [List.set, List.getD] using ih i' j' fun hc => h (by rw [hc])

theorem mutateAt_read_ne (j : Nat) :
    ∀ (muts : List MapMutation) (h : MapHeap) (c : Nat), c ≠ j →
      (mutateAt h c muts).read j = h.read j := by
  intro muts
  induction muts with
  | nil => intro h c _; rfl
  | cons mu rest ih =>
    intro h c hne
    rw [mutateAt, ih _ _ hne]
    exact listGetD_set_ne h.slots c j (applyMutation (h.read c) mu) hne

/-! ## Claim theorems -/

/-- C3, counterexample: the claim quantifies over all distinct pairs,
but `makeKey` joins the two components with `::` and two distinct
pairs can collide on the composed key. With the pairs
`("a::b", "c") ≠ ("a", "b::c")`, `Set("a::b", "c", "u")` changes the
result of `Get("a", "b::c")` from `none` to `some "u"`. -/
theorem C3_key_collision_counterexample :
    (("a::b", "c") ≠ (("a", "b::c") : String × String))
    ∧ Registry.get (Registry.set [] "a::b" "c" "u") "a" "b::c"
        ≠ Registry.get [] "a" "b::c" := by
  decide

/-- C3, amended: registry entries are independent whenever the composed
keys differ — for all pairs with `makeKey m1 r1 ≠ makeKey m2 r2` (in
particular whenever neither component contains `::`), `Set(m1, r1, url)`
leaves `Get(m2, r2)` unchanged on every registry state. -/
theorem C3_registry_frame_amended (store : GoMap) (m1 r1 m2 r2 url : String)
    (hkey : makeKey m2 r2 ≠ makeKey m1 r1) :
    Registry.get (Registry.set store m1 r1 url) m2 r2 = Registry.get store m2 r2 :=
  GoMap.lookup_insert_ne store (makeKey m1 r1) (makeKey m2 r2) url hkey

/-- Witness for C3's amended theorem at a concrete registry state. -/
theorem C3_registry_frame_amended_witness :
    makeKey "m2" "vllm" ≠ makeKey "m1" "vllm"
    ∧ Registry.get (Registry.set [("m2::vllm", "u2")] "m1" "vllm" "u1") "m2" "vllm"
        = Registry.get [("m2::vllm", "u2")] "m2" "vllm" :=
  ⟨by decide,
    C3_registry_frame_amended [("m2::vllm", "u2")] "m1" "vllm" "m2" "vllm" "u1" (by decide)⟩

/-- C5: the claim says the service's pod selector matches the labels the
deployment applies to its pod template. It does not: the selector built
by `buildServiceManifest` is `{app: worker, name: <deploymentName>}`
while the pod template carries `{app: worker, runtime: <runtime>,
model: <slug>}` — no pod ever has a `name` label, so for every deploy
the selector fails to match the workload's pods. The conjuncts evaluate
both label sets at the spec's own example (model `m1`, runtime `vllm`)
and show the mismatch for all inputs. -/
theorem C5_service_selector_mismatch :
    (∀ (model runtime quant : String) (rc : RuntimeConfig) (mc : ModelConfig),
      selectorMatches
        (buildServiceManifest "default" (workerName model runtime)
          (workerName model runtime)).selector
        (buildDeploymentManifest "default" (workerName model runtime)
          model runtime quant rc mc).podLabels = false)
    ∧ (buildServiceManifest "default" (workerName "m1" "vllm")
        (workerName "m1" "vllm")).selector
        = [("app", "worker"), ("name", "worker-vllm-m1")]
    ∧ (buildDeploymentManifest "default" (workerName "m1" "vllm") "m1" "vllm" "fp16"
        ⟨"vllm", "ghcr.io/tokenforge/worker-vllm:latest", 0, "2", "8Gi", []⟩
        ⟨"m1", "fp16", "sha256:abc"⟩).podLabels
        = [("app", "worker"), ("runtime", "vllm"), ("model", "m1")] := by
  refine ⟨?_, by decide, by decide⟩
  intro model runtime quant rc mc
  simp [selectorMatches, buildServiceManifest, buildDeploymentManifest, GoMap.lookup]

/-- C6: when the registry already holds an entry for `(model, runtime)`,
`Controller.DeployModel` returns that entry's endpoint, does not invoke
`k8s.DeployWorker` (so no workload or service object is created), and
leaves the registry unchanged. -/
theorem C6_deploy_fast_path (env : ClusterEnv) (reg : GoMap)
    (model runtime quant url : String)
    (h : Registry.get reg model runtime = some url) :
    DeployModel env reg model runtime quant = ⟨.ok url, reg, false⟩ := by
  unfold DeployModel
  rw [h]

/-- Witness for C6 at a concrete registry with an existing entry and a
cluster oracle that would fail if it were ever consulted. -/
theorem C6_deploy_fast_path_witness :
    Registry.get [("m::vllm", "u")] "m" "vllm" = some "u"
    ∧ DeployModel ⟨.error "cluster down", fun _ => .error "cluster down"⟩
        [("m::vllm", "u")] "m" "vllm" "fp16"
        = ⟨.ok "u", [("m::vllm", "u")], false⟩ :=
  ⟨by decide,
    C6_deploy_fast_path ⟨.error "cluster down", fun _ => .error "cluster down"⟩
      [("m::vllm", "u")] "m" "vllm" "fp16" "u" (by decide)⟩

/-- C7: the computed cluster resource name is
`"worker-" ++ runtime ++ "-" ++ slugify model` for every input, where
`slugify` is exactly the character map that sends `/` and `.` to `-`
and lowercases; and on the spec's example it yields
`worker-vllm-meta-llama-llama-3-8b-instruct`. Determinism is immediate:
the name is a pure function of the two inputs. -/
theorem C7_worker_name_deterministic :
    (∀ model runtime, workerName model runtime
        = "worker-" ++ runtime ++ "-" ++ slugify model)
    ∧ (∀ s, slugify s = String.mk (s.data.map fun c =>
        Char.toLower (if c = '/' then '-' else if c = '.' then '-' else c)))
    ∧ workerName "meta-llama/Llama-3-8b-instruct" "vllm"
        = "worker-vllm-meta-llama-llama-3-8b-instruct" := by
  refine ⟨fun _ _ => rfl, ?_, by decide⟩
  intro s
  simp only [slugify, strToLower, replaceAllChar, List.map_map]
  refine congrArg String.mk (List.map_congr_left fun c _ => ?_)
  by_cases h1 : c = '/' <;> by_cases h2 : c = '.' <;>
    simp [h1, h2, Function.comp]

/-- C1, counterexample: a deploy whose workload creation succeeds but
whose deployment never reports ready. After the 5-minute deadline
elapses, `DeployModel` returns a timeout error to its caller, and the
registry entry for `("mX", "vllm")` is exactly the service URL written
at provisioning time — the registry stores bare URLs, and no terminal
`Failed` status or timeout message is ever recorded in it (nor is a
`Ready` status recorded on success), refuting the claim's Registry
update. -/
theorem C1_no_failed_status_counterexample :
    DeployModel ⟨.ok ⟨"http://worker-vllm-mx.default.svc.cluster.local:8000",
        "default", "worker-vllm-mx", "worker-vllm-mx"⟩, fun _ => .ok false⟩
        [] "mX" "vllm" "fp16"
      = ⟨.error ("deployment failed to become ready: " ++ ctxDeadlineExceeded),
         [("mX::vllm", "http://worker-vllm-mx.default.svc.cluster.local:8000")], true⟩
    ∧ Registry.get
        [("mX::vllm", "http://worker-vllm-mx.default.svc.cluster.local:8000")]
        "mX" "vllm"
      = some "http://worker-vllm-mx.default.svc.cluster.local:8000" := by
  exact ⟨by decide, by decide⟩

/-- C1, amended: readiness polling does run at a fixed 5-second
interval under a 5-minute deadline (so at most 60 checks); when every
check within the deadline reports not-ready, polling stops with a
timeout, and when a check reports ready it stops with success. But the
outcome is delivered to the caller of `DeployModel` as a returned error
or the service URL — the registry keeps exactly the URL written at
provisioning in both cases; no `Failed` or `Ready` status is written. -/
theorem C1_polling_amended :
    (pollIntervalSeconds = 5 ∧ deployDeadlineSeconds = 300 ∧ maxPollAttempts = 60)
    ∧ (∀ f, (∀ i, i < maxPollAttempts → f i = .ok false) →
        waitForReady f = .timedOut)
    ∧ (∀ f k, k < maxPollAttempts → (∀ i, i < k → f i = .ok false) →
        f k = .ok true → waitForReady f = .ready)
    ∧ (∀ (env : ClusterEnv) (reg : GoMap) (model runtime quant : String)
        (w : DeployedWorker),
        Registry.get reg model runtime = none →
        env.deployWorker = .ok w →
        (DeployModel env reg model runtime quant).registry
            = Registry.set reg model runtime w.serviceURL
        ∧ (waitForReady env.isReady = .timedOut →
            (DeployModel env reg model runtime quant).result
              = .error ("deployment failed to become ready: " ++ ctxDeadlineExceeded))
        ∧ (waitForReady env.isReady = .ready →
            (DeployModel env reg model runtime quant).result = .ok w.serviceURL)) := by
  refine ⟨⟨rfl, rfl, rfl⟩, ?_, ?_, ?_⟩
  · intro f h
    exact waitForReadyLoop_timedOut f maxPollAttempts 0 fun j hj => by
      simpa using h j hj
  · intro f k hk hbefore hk'
    exact waitForReadyLoop_ready f maxPollAttempts 0 k hk
      (fun j hj => by simpa using hbefore j hj) (by simpa using hk')
  · intro env reg model runtime quant w hget hdw
    cases hwr : waitForReady env.isReady <;>
      refine ⟨?_, ?_, ?_⟩ <;>
        simp [DeployModel, hget, hdw, hwr]

/-- Witness for C1's amended theorem: a never-ready cluster times out
after the 60 checks, an immediately-ready cluster succeeds, and a
concrete timed-out deploy returns the timeout error with the registry
holding the provisioning URL. -/
theorem C1_polling_amended_witness :
    waitForReady (fun _ => .ok false) = .timedOut
    ∧ waitForReady (fun _ => .ok true) = .ready
    ∧ ((DeployModel ⟨.ok ⟨"u1", "default", "d1", "s1"⟩, fun _ => .ok false⟩
          [] "mA" "vllm" "fp16").registry = Registry.set [] "mA" "vllm" "u1"
        ∧ (DeployModel ⟨.ok ⟨"u1", "default", "d1", "s1"⟩, fun _ => .ok false⟩
            [] "mA" "vllm" "fp16").result
          = .error ("deployment failed to become ready: " ++ ctxDeadlineExceeded)) := by
  refine ⟨C1_polling_amended.2.1 _ fun i _ => rfl,
    C1_polling_amended.2.2.1 _ 0 (by decide) (fun i hi => absurd hi (Nat.not_lt_zero i)) rfl,
    ?_⟩
  have h := C1_polling_amended.2.2.2
    ⟨.ok ⟨"u1", "default", "d1", "s1"⟩, fun _ => .ok false⟩ [] "mA" "vllm" "fp16"
    ⟨"u1", "default", "d1", "s1"⟩ (by decide) rfl
  exact ⟨h.1, h.2.1 (C1_polling_amended.2.1 _ fun i _ => rfl)⟩

/-- C2, counterexample: two deploys that provision identically (same
successful `DeployWorker` outcome) but differ only in the subsequent
readiness polling produce different values from `DeployModel`, and the
timed-out one surfaces the failure as an error returned by the deploy
call itself — refuting both halves of the claim. -/
theorem C2_deploy_blocks_counterexample :
    (DeployModel ⟨.ok ⟨"uB", "default", "dB", "sB"⟩, fun _ => .ok true⟩
        [] "mB" "vllm" "fp16").result = .ok "uB"
    ∧ (DeployModel ⟨.ok ⟨"uB", "default", "dB", "sB"⟩, fun _ => .ok false⟩
        [] "mB" "vllm" "fp16").result
      = .error ("deployment failed to become ready: " ++ ctxDeadlineExceeded) := by
  exact ⟨by decide, by decide⟩

/-- C2, amended: the HTTP deploy handler (`DeployHandler`) answers
`status: "deploying"` immediately after a successful `DeployWorker`
call and consults no readiness information at all, so on that path
a later failure is observable only through the registry; but
`Controller.DeployModel` waits on readiness synchronously and returns
a timeout of the polling loop as an error to the original deploy
caller. -/
theorem C2_deploy_return_amended :
    (∀ (dw : Except String DeployedWorker) (reg : GoMap) (req : DeployRequest)
      (w : DeployedWorker),
      req.model ≠ "" → req.runtime ≠ "" → dw = .ok w →
      DeployHandler dw reg req
        = (.ok ⟨w.serviceURL, "deploying", w.nsName, w.deploymentName, w.serviceName⟩,
           Registry.set reg req.model req.runtime w.serviceURL))
    ∧ (∀ (env : ClusterEnv) (reg : GoMap) (model runtime quant : String)
        (w : DeployedWorker),
        Registry.get reg model runtime = none →
        env.deployWorker = .ok w →
        waitForReady env.isReady = .timedOut →
        (DeployModel env reg model runtime quant).result
          = .error ("deployment failed to become ready: " ++ ctxDeadlineExceeded)) := by
  constructor
  · intro dw reg req w h1 h2 hdw
    unfold DeployHandler
    rw [if_neg (by simp [h1, h2]), hdw]
  · intro env reg model runtime quant w hget hdw hwr
    unfold DeployModel
    rw [hget, hdw, hwr]

/-- Witness for C2's amended theorem: a concrete handler call answers
"deploying" at once, and a concrete never-ready `DeployModel` call
returns the timeout error. -/
theorem C2_deploy_return_amended_witness :
    (("mW" : String) ≠ "" ∧ ("vllm" : String) ≠ ""
      ∧ DeployHandler (.ok ⟨"uW", "default", "dW", "sW"⟩) [] ⟨"mW", "vllm", "fp16"⟩
          = (.ok ⟨"uW", "deploying", "default", "dW", "sW"⟩,
             Registry.set [] "mW" "vllm" "uW"))
    ∧ (Registry.get [] "mW" "vllm" = none
      ∧ waitForReady (fun _ => .ok false) = .timedOut
      ∧ (DeployModel ⟨.ok ⟨"uW", "default", "dW", "sW"⟩, fun _ => .ok false⟩
            [] "mW" "vllm" "fp16").result
        = .error ("deployment failed to become ready: " ++ ctxDeadlineExceeded)) := by
  refine ⟨⟨by decide, by decide, ?_⟩, by decide, by decide, ?_⟩
  · exact C2_deploy_return_amended.1 (.ok ⟨"uW", "default", "dW", "sW"⟩) []
      ⟨"mW", "vllm", "fp16"⟩ ⟨"uW", "default", "dW", "sW"⟩
      (by decide) (by decide) rfl
  · exact C2_deploy_return_amended.2
      ⟨.ok ⟨"uW", "default", "dW", "sW"⟩, fun _ => .ok false⟩ [] "mW" "vllm" "fp16"
      ⟨"uW", "default", "dW", "sW"⟩ (by decide) rfl (by decide)

/-- Shared shape lemma for the gateway's streaming branch: under a
found registry entry, a successful POST and a successful body read,
the handler makes exactly one outbound call and its writes start with
the five `streamHead` items; when the backend's content type is not an
event stream and the body parses, the writes are exactly `streamHead`
followed by one event per whitespace token of the parsed output. -/
theorem inferHandler_stream_shape (env : InferEnv) (reg : GoMap) (req : InferRequest)
    (workerURL : String) (resp : BackendResponse) (respBody : String)
    (hs : req.stream = true)
    (h1 : req.model ≠ "") (h2 : req.runtime ≠ "") (h3 : req.prompt ≠ "")
    (hget : Registry.get reg req.model req.runtime = some workerURL)
    (hpost : env.post (workerURL ++ "/infer") = .ok resp)
    (hbody : resp.bodyRead = .ok respBody) :
    (InferHandler env reg req).calls = [workerURL ++ "/infer"]
    ∧ (InferHandler env reg req).writes.take 5 = streamHead resp.status respBody
    ∧ (∀ ir, resp.contentType ≠ "text/event-stream" → resp.parsed = .ok ir →
        (InferHandler env reg req).writes
          = streamHead resp.status respBody ++ (syntheticEvents ir.output).map .event) := by
  have hcond : ¬ (req.model = "" ∨ req.runtime = "" ∨ req.prompt = "") := by
    simp [h1, h2, h3]
  by_cases hct : resp.contentType = "text/event-stream"
  · refine ⟨?_, ?_, ?_⟩ <;>
      simp [InferHandler, hcond, hget, hpost, hbody, hs, hct, streamHead]
  · cases hp : resp.parsed with
    | error e =>
      refine ⟨?_, ?_, ?_⟩ <;>
        simp [InferHandler, hcond, hget, hpost, hbody, hs, hct, hp, streamHead,
          httpError, List.take]
    | ok ir =>
      refine ⟨?_, ?_, fun ir' _ hp' => ?_⟩ <;>
        simp [InferHandler, hcond, hget, hpost, hbody, hs, hct, hp, streamHead,
          List.take]
      cases hp'
      rfl

/-- C8: for a request with non-empty model, runtime and prompt whose
pair is absent from the registry, the gateway answers 404 with the
not-deployed message and performs no outbound call (`calls = []`). -/
theorem C8_infer_not_found (env : InferEnv) (reg : GoMap) (req : InferRequest)
    (h1 : req.model ≠ "") (h2 : req.runtime ≠ "") (h3 : req.prompt ≠ "")
    (hget : Registry.get reg req.model req.runtime = none) :
    InferHandler env reg req
      = ⟨[], httpError 404 "model not deployed with specified runtime"⟩ := by
  have hcond : ¬ (req.model = "" ∨ req.runtime = "" ∨ req.prompt = "") := by
    simp [h1, h2, h3]
  simp [InferHandler, hcond, hget]

/-- Witness for C8 against an empty registry and a backend oracle that
would fail were it ever called. -/
theorem C8_infer_not_found_witness :
    ("mZ" : String) ≠ "" ∧ ("vllm" : String) ≠ "" ∧ ("hello" : String) ≠ ""
    ∧ Registry.get [] "mZ" "vllm" = none
    ∧ InferHandler ⟨fun _ => .error "unreachable"⟩ []
        ⟨"mZ", "vllm", "hello", 16, 0.7, 0.9, false⟩
      = ⟨[], httpError 404 "model not deployed with specified runtime"⟩ :=
  ⟨by decide, by decide, by decide, by decide,
    C8_infer_not_found ⟨fun _ => .error "unreachable"⟩ []
      ⟨"mZ", "vllm", "hello", 16, 0.7, 0.9, false⟩
      (by decide) (by decide) (by decide) (by decide)⟩

/-- C10: in the streaming branch the raw backend body is written (after
the three SSE headers and the status) before the content type is ever
examined, so the first five writes are always `streamHead`; and when a
stream is synthesized from a synchronous payload, the caller receives
the full raw payload followed by the per-token events, never the token
events alone. -/
theorem C10_raw_body_precedes_events (env : InferEnv) (reg : GoMap)
    (req : InferRequest) (workerURL : String) (resp : BackendResponse)
    (respBody : String)
    (hs : req.stream = true)
    (h1 : req.model ≠ "") (h2 : req.runtime ≠ "") (h3 : req.prompt ≠ "")
    (hget : Registry.get reg req.model req.runtime = some workerURL)
    (hpost : env.post (workerURL ++ "/infer") = .ok resp)
    (hbody : resp.bodyRead = .ok respBody) :
    (InferHandler env reg req).writes.take 5 = streamHead resp.status respBody
    ∧ (∀ ir, resp.contentType ≠ "text/event-stream" → resp.parsed = .ok ir →
        (InferHandler env reg req).writes
          = streamHead resp.status respBody ++ (syntheticEvents ir.output).map .event) :=
  ⟨(inferHandler_stream_shape env reg req workerURL resp respBody
      hs h1 h2 h3 hget hpost hbody).2.1,
   (inferHandler_stream_shape env reg req workerURL resp respBody
      hs h1 h2 h3 hget hpost hbody).2.2⟩

/-- Witness for C10 at a concrete synthetic-stream exchange: the caller
receives the raw payload `"RAW"` first, then the two token events. -/
theorem C10_raw_body_precedes_events_witness :
    (InferHandler ⟨fun _ => .ok ⟨200, "application/json", .ok "RAW",
          .ok ⟨"tok1 tok2", 1, 1, 2, "e", "v", "c", "g"⟩⟩⟩
        [("mS::vllm", "http://w")]
        ⟨"mS", "vllm", "p", 8, 0.5, 0.9, true⟩).writes.take 5
      = streamHead 200 "RAW"
    ∧ (InferHandler ⟨fun _ => .ok ⟨200, "application/json", .ok "RAW",
          .ok ⟨"tok1 tok2", 1, 1, 2, "e", "v", "c", "g"⟩⟩⟩
        [("mS::vllm", "http://w")]
        ⟨"mS", "vllm", "p", 8, 0.5, 0.9, true⟩).writes
      = streamHead 200 "RAW"
        ++ (syntheticEvents "tok1 tok2").map .event := by
  have h := C10_raw_body_precedes_events
    ⟨fun _ => .ok ⟨200, "application/json", .ok "RAW",
        .ok ⟨"tok1 tok2", 1, 1, 2, "e", "v", "c", "g"⟩⟩⟩
    [("mS::vllm", "http://w")] ⟨"mS", "vllm", "p", 8, 0.5, 0.9, true⟩
    "http://w" ⟨200, "application/json", .ok "RAW",
        .ok ⟨"tok1 tok2", 1, 1, 2, "e", "v", "c", "g"⟩⟩ "RAW"
    rfl (by decide) (by decide) (by decide) (by decide) rfl rfl
  exact ⟨h.1, h.2 ⟨"tok1 tok2", 1, 1, 2, "e", "v", "c", "g"⟩ (by decide) rfl⟩

/-- C4, counterexample: with `max_tokens = 2` and a backend output of
three whitespace tokens, the claim predicts the emission stops at the
cutoff (no index past 1, `is_last` on the cutoff event). The synthetic
loop never reads `max_tokens`: the handler emits the event at index 1
with `is_last = false` and a third event at index 2 — past the cutoff —
with `is_last = true`. -/
theorem C4_no_max_tokens_cutoff_counterexample :
    (⟨"mC", "vllm", "p", 2, 0.0, 1.0, true⟩ : InferRequest).maxTokens = 2
    ∧ WriteItem.event ⟨"b", 1, false⟩
        ∈ (InferHandler ⟨fun _ => .ok ⟨200, "application/json", .ok "RAWC",
              .ok ⟨"a b c", 1, 1, 3, "e", "v", "c", "g"⟩⟩⟩
            [("mC::vllm", "http://wc")]
            ⟨"mC", "vllm", "p", 2, 0.0, 1.0, true⟩).writes
    ∧ WriteItem.event ⟨"c", 2, true⟩
        ∈ (InferHandler ⟨fun _ => .ok ⟨200, "application/json", .ok "RAWC",
              .ok ⟨"a b c", 1, 1, 3, "e", "v", "c", "g"⟩⟩⟩
            [("mC::vllm", "http://wc")]
            ⟨"mC", "vllm", "p", 2, 0.0, 1.0, true⟩).writes := by
  exact ⟨rfl, by decide, by decide⟩

/-- C4, amended: in the synthetic-streaming branch the gateway emits
exactly one event per whitespace-delimited token of the parsed output —
the event at position `j` carries token `j`, the zero-based index `j`,
and `is_last` true exactly on the final token — regardless of the
requested `max_tokens`, which the loop never consults; a nonempty
output therefore ends with an `is_last = true` event (an empty output
emits none). On the spec's example the six events with indices 0..5
are produced in order, the last marked last. -/
theorem C4_synthetic_stream_amended :
    (∀ output j, (syntheticEvents output).get? j
        = ((fields output).get? j).map fun t =>
            ⟨t, j, (j == (fields output).length - 1)⟩)
    ∧ (∀ output, (syntheticEvents output).length = (fields output).length)
    ∧ (∀ (env : InferEnv) (reg : GoMap) (req : InferRequest) (workerURL : String)
        (resp : BackendResponse) (respBody : String) (ir : InferResponse),
        req.stream = true → req.model ≠ "" → req.runtime ≠ "" → req.prompt ≠ "" →
        Registry.get reg req.model req.runtime = some workerURL →
        env.post (workerURL ++ "/infer") = .ok resp →
        resp.bodyRead = .ok respBody →
        resp.contentType ≠ "text/event-stream" →
        resp.parsed = .ok ir →
        (InferHandler env reg req).writes
          = streamHead resp.status respBody ++ (syntheticEvents ir.output).map .event)
    ∧ syntheticEvents "The capital of France is Paris"
        = [⟨"The", 0, false⟩, ⟨"capital", 1, false⟩, ⟨"of", 2, false⟩,
           ⟨"France", 3, false⟩, ⟨"is", 4, false⟩, ⟨"Paris", 5, true⟩] := by
  refine ⟨?_, ?_, ?_, by decide⟩
  · intro output j
    simpa using emitTokens_get? (fields output) (fields output).length 0 j
  · intro output
    exact emitTokens_length (fields output) (fields output).length 0
  · intro env reg req workerURL resp respBody ir hs h1 h2 h3 hget hpost hbody hct hp
    exact (inferHandler_stream_shape env reg req workerURL resp respBody
      hs h1 h2 h3 hget hpost hbody).2.2 ir hct hp

/-- Witness for C4's amended theorem: the spec's own scenario — backend
output "The capital of France is Paris" with `max_tokens = 10` — run
through the handler end to end, producing the raw payload followed by
exactly the six events. -/
theorem C4_synthetic_stream_amended_witness :
    (InferHandler ⟨fun _ => .ok ⟨200, "application/json", .ok "RAWJ",
          .ok ⟨"The capital of France is Paris", 3, 7, 6, "e", "v", "c", "g"⟩⟩⟩
        [("mQ::vllm", "http://wq")]
        ⟨"mQ", "vllm", "ask", 10, 0.5, 0.9, true⟩).writes
      = streamHead 200 "RAWJ"
        ++ [.event ⟨"The", 0, false⟩, .event ⟨"capital", 1, false⟩,
            .event ⟨"of", 2, false⟩, .event ⟨"France", 3, false⟩,
            .event ⟨"is", 4, false⟩, .event ⟨"Paris", 5, true⟩] := by
  have h := C4_synthetic_stream_amended.2.2.1
    ⟨fun _ => .ok ⟨200, "application/json", .ok "RAWJ",
        .ok ⟨"The capital of France is Paris", 3, 7, 6, "e", "v", "c", "g"⟩⟩⟩
    [("mQ::vllm", "http://wq")] ⟨"mQ", "vllm", "ask", 10, 0.5, 0.9, true⟩
    "http://wq" ⟨200, "application/json", .ok "RAWJ",
        .ok ⟨"The capital of France is Paris", 3, 7, 6, "e", "v", "c", "g"⟩⟩ "RAWJ"
    ⟨"The capital of France is Paris", 3, 7, 6, "e", "v", "c", "g"⟩
    rfl (by decide) (by decide) (by decide) (by decide) rfl rfl (by decide) rfl
  rw [h]
  rfl

/-- C9: `Registry.List` hands back a freshly allocated map holding a
copy of the store's entries; applying any sequence of mutations (writes
and deletes) to the returned map leaves every subsequent `Get` against
the registry's own store unchanged. -/
theorem C9_list_defensive_copy (h : MapHeap) (r : RegistryRef)
    (hvalid : r.ref < h.slots.length) (muts : List MapMutation)
    (model runtime : String) :
    MapHeap.read (r.listH h).2 (r.listH h).1 = MapHeap.read h r.ref
    ∧ RegistryRef.getH (mutateAt (r.listH h).2 (r.listH h).1 muts) r model runtime
        = RegistryRef.getH h r model runtime := by
  have hne : (r.listH h).1 ≠ r.ref :=
    fun hc => absurd (hc ▸ hvalid) (Nat.lt_irrefl _)
  constructor
  · exact listGetD_append_at_length h.slots (h.read r.ref)
  · unfold RegistryRef.getH
    rw [mutateAt_read_ne r.ref muts (r.listH h).2 (r.listH h).1 hne]
    have hcopy : MapHeap.read (r.listH h).2 r.ref = MapHeap.read h r.ref :=
      listGetD_append_left h.slots [h.read r.ref] r.ref hvalid
    rw [hcopy]

/-- Witness for C9: a one-slot heap whose store holds `m::r ↦ u`; after
overwriting and deleting the key in the copy returned by `List`, `Get`
on the registry still answers `u`. -/
theorem C9_list_defensive_copy_witness :
    (0 : Nat) < 1
    ∧ (MapHeap.read (RegistryRef.listH ⟨[[("m::r", "u")]]⟩ ⟨0⟩).2
          (RegistryRef.listH ⟨[[("m::r", "u")]]⟩ ⟨0⟩).1
        = MapHeap.read ⟨[[("m::r", "u")]]⟩ 0
      ∧ RegistryRef.getH
          (mutateAt (RegistryRef.listH ⟨[[("m::r", "u")]]⟩ ⟨0⟩).2
            (RegistryRef.listH ⟨[[("m::r", "u")]]⟩ ⟨0⟩).1
            [.insert "m::r" "x", .erase "m::r"])
          ⟨0⟩ "m" "r"
        = RegistryRef.getH ⟨[[("m::r", "u")]]⟩ ⟨0⟩ "m" "r") :=
  ⟨by decide,
    C9_list_defensive_copy ⟨[[("m::r", "u")]]⟩ ⟨0⟩ (by decide)
      [.insert "m::r" "x", .erase "m::r"] "m" "r"⟩
